import Mathlib

/-!
Shallow embedding of cilium's k8s watch-event normalization and equality
layer (the `factory_functions` file of package k8s): per-kind normalizers
(`ConvertTo*`), per-kind equality evaluators (`EqualV1*`, `EqualV2CNP`),
top-level cast helpers (`ObjTo*`) and the deletion-tombstone handling.

Go maps `map[string]string` are modelled as association lists compared
extensionally; Go slices that the code distinguishes from nil are modelled
as `Option (List _)`; values the code only ever compares with
`reflect.DeepEqual` (policy specs, endpoint subsets, service specs, node
addresses, statuses) are modelled as atoms (`String`) with decidable
equality.  Functions that mutate their argument in place are modelled by
returning the post-call state of that argument alongside the result.
-/

namespace K8s

/-- Go `map[string]string`, as an association list; all observations go
through `lookupA`, so comparisons are extensional. -/
abbrev Strmap := List (String × String)

/-- Go map lookup `m[k]` returning presence (`m[k], ok`). -/
def lookupA : Strmap → String → Option String
  | [], _ => none
  | (k, v) :: rest, key => if key = k then some v else lookupA rest key

/-- Go map indexing `m[k]` with the zero-value default for a missing key. -/
def lookupD (m : Strmap) (key : String) : String :=
  (lookupA m key).getD ""

/-- Go `delete(m, key)`. -/
def deleteA (key : String) : Strmap → Strmap
  | [] => []
  | (k, v) :: rest => if k = key then deleteA key rest else (k, v) :: deleteA key rest

/-- Go map write `m[key] = v`. -/
def insertA (key v : String) (m : Strmap) : Strmap :=
  (key, v) :: deleteA key m

def keysOf (m : Strmap) : List String := m.map Prod.fst

/-- Extensional equality of two Go string maps, as a proposition. -/
def mapEqA (m1 m2 : Strmap) : Prop := ∀ k, lookupA m1 k = lookupA m2 k

/-- Modelled from the spec: `pkg/comparator.MapStringEquals` (not under the
staged sources) — "labels match exactly" / "all annotations match exactly":
the two maps hold exactly the same entries. -/
def MapStringEquals (m1 m2 : Strmap) : Bool :=
  (keysOf m1 ++ keysOf m2).all fun k => decide (lookupA m1 k = lookupA m2 k)

/-- metav1 `ObjectMeta`, narrowed to the fields this file reads. -/
structure ObjectMeta where
  name : String
  namespace' : String
  labels : Strmap
  annotations : Strmap
deriving DecidableEq

structure TypeMeta where
  kind : String
  apiVersion : String
deriving DecidableEq

def zeroTypeMeta : TypeMeta := { kind := "", apiVersion := "" }

def zeroObjectMeta : ObjectMeta :=
  { name := "", namespace' := "", labels := [], annotations := [] }

/-- `v1.LastAppliedConfigAnnotation`. -/
def lastAppliedConfigKey : String := "kubectl.kubernetes.io/last-applied-configuration"

/-- `annotation.ProxyVisibility`. -/
def proxyVisibilityKey : String := "io.cilium.proxy-visibility"

/-- `annotation.CiliumHostIP`. -/
def ciliumHostIPKey : String := "io.cilium.network.ipv4-cilium-host"

/-- `annotation.CiliumHostIPv6`. -/
def ciliumHostIPv6Key : String := "io.cilium.network.ipv6-cilium-host"

/-- `annotation.V4HealthName`. -/
def v4HealthNameKey : String := "io.cilium.network.ipv4-health-ip"

/-- `annotation.V6HealthName`. -/
def v6HealthNameKey : String := "io.cilium.network.ipv6-health-ip"

/-! ### NetworkPolicy -/

/-- `*networkingv1.NetworkPolicy`: identity plus a spec compared only via
`reflect.DeepEqual`, modelled as an atom. -/
structure V1NetworkPolicy where
  objectMeta : ObjectMeta
  spec : String
deriving DecidableEq

/-- `types.NetworkPolicy`, wrapping the raw policy. -/
structure NetworkPolicy where
  networkPolicy : V1NetworkPolicy
deriving DecidableEq

/-- The concrete-object branch of `ConvertToNetworkPolicy`. -/
def ConvertToNetworkPolicyCore (p : V1NetworkPolicy) : NetworkPolicy :=
  { networkPolicy := p }

def EqualV1NetworkPolicy (np1 np2 : NetworkPolicy) : Bool :=
  decide (np1.networkPolicy.objectMeta.name = np2.networkPolicy.objectMeta.name)
  && decide (np1.networkPolicy.objectMeta.namespace' = np2.networkPolicy.objectMeta.namespace')
  && decide (np1.networkPolicy.spec = np2.networkPolicy.spec)

/-! ### Service -/

/-- The node-addressing capability handed to `ParseService`; opaque here. -/
abbrev NodeAddressing := String

/-- `*v1.Service`: identity plus a spec/status payload, opaque to this file
(equality work is delegated to the service parser). -/
structure V1Service where
  objectMeta : ObjectMeta
  spec : String
deriving DecidableEq

/-- `types.Service`. -/
structure Service where
  service : V1Service
deriving DecidableEq

def ConvertToK8sServiceCore (s : V1Service) : Service :=
  { service := s }

abbrev ServiceID := String × String

/-- The parsed `K8sServiceInfo` value; structurally comparable. -/
structure K8sServiceInfo where
  info : String
  addressing : NodeAddressing
deriving DecidableEq

/-- Modelled from the spec: `ParseService` (service-parsing collaborator,
not under the staged sources) "derives a stable service identifier and a
structurally comparable service-info value from a raw service plus
node-addressing configuration" — a pure function of its two inputs. -/
def ParseService (svc : Service) (nodeAddressing : NodeAddressing) :
    ServiceID × K8sServiceInfo :=
  ((svc.service.objectMeta.namespace', svc.service.objectMeta.name),
   { info := svc.service.spec, addressing := nodeAddressing })

/-- Modelled from the spec: `K8sServiceInfo.DeepEquals` — a "dedicated
deep-equality routine" on the parsed service info. -/
def DeepEquals (s1 s2 : K8sServiceInfo) : Bool := decide (s1 = s2)

def EqualV1Services (k8sSVC1 k8sSVC2 : Service) (nodeAddressing : NodeAddressing) : Bool :=
  MapStringEquals k8sSVC1.service.objectMeta.annotations k8sSVC2.service.objectMeta.annotations
  && decide ((ParseService k8sSVC1 nodeAddressing).1 = (ParseService k8sSVC2 nodeAddressing).1)
  && DeepEquals (ParseService k8sSVC1 nodeAddressing).2 (ParseService k8sSVC2 nodeAddressing).2

/-! ### Endpoints and EndpointSlice -/

/-- `*v1.Endpoints`: identity plus subsets compared via `reflect.DeepEqual`. -/
structure V1Endpoints where
  objectMeta : ObjectMeta
  subsets : List String
deriving DecidableEq

structure Endpoints where
  endpoints : V1Endpoints
deriving DecidableEq

def ConvertToK8sEndpointsCore (e : V1Endpoints) : Endpoints :=
  { endpoints := e }

def EqualV1Endpoints (ep1 ep2 : Endpoints) : Bool :=
  decide (ep1.endpoints.objectMeta.name = ep2.endpoints.objectMeta.name)
  && decide (ep1.endpoints.objectMeta.namespace' = ep2.endpoints.objectMeta.namespace')
  && decide (ep1.endpoints.subsets = ep2.endpoints.subsets)

/-- `*v1beta1.EndpointSlice`: identity, immutable address type, endpoints
and ports (the latter two compared via `reflect.DeepEqual`). -/
structure V1beta1EndpointSlice where
  objectMeta : ObjectMeta
  addressType : String
  endpoints : List String
  ports : List String
deriving DecidableEq

structure EndpointSlice where
  endpointSlice : V1beta1EndpointSlice
deriving DecidableEq

def ConvertToK8sEndpointSliceCore (e : V1beta1EndpointSlice) : EndpointSlice :=
  { endpointSlice := e }

def EqualV1EndpointSlice (ep1 ep2 : EndpointSlice) : Bool :=
  decide (ep1.endpointSlice.objectMeta.name = ep2.endpointSlice.objectMeta.name)
  && decide (ep1.endpointSlice.objectMeta.namespace' = ep2.endpointSlice.objectMeta.namespace')
  && decide (ep1.endpointSlice.endpoints = ep2.endpointSlice.endpoints)
  && decide (ep1.endpointSlice.ports = ep2.endpointSlice.ports)

/-! ### CiliumNetworkPolicy (single and cluster-wide, with status) -/

/-- `cilium_v2.CiliumNetworkPolicy`: spec, multi-spec list and status are
compared only via `reflect.DeepEqual`, modelled as atoms. -/
structure CiliumNetworkPolicy where
  typeMeta : TypeMeta
  objectMeta : ObjectMeta
  spec : String
  specs : List String
  status : String
deriving DecidableEq

/-- `types.SlimCNP`, embedding a `*cilium_v2.CiliumNetworkPolicy`. -/
structure SlimCNP where
  cnp : CiliumNetworkPolicy
deriving DecidableEq

/-- `cilium_v2.CiliumClusterwideNetworkPolicy`: an embedded
`*CiliumNetworkPolicy` plus the cluster-wide `Status` field. -/
structure CiliumClusterwideNetworkPolicy where
  cnp : CiliumNetworkPolicy
  status : String
deriving DecidableEq

def zeroCNP : CiliumNetworkPolicy :=
  { typeMeta := zeroTypeMeta, objectMeta := zeroObjectMeta,
    spec := "", specs := [], status := "" }

def zeroCCNP : CiliumClusterwideNetworkPolicy :=
  { cnp := zeroCNP, status := "" }

def setAnnotations (c : SlimCNP) (a : Strmap) : SlimCNP :=
  { c with cnp := { c.cnp with objectMeta := { c.cnp.objectMeta with annotations := a } } }

/-- The deferred restore in `EqualV2CNP`: when the annotation was present
(`ok`), write the saved value back; a nil/absent case restores nothing. -/
def restoreLastApplied (saved : Option String) (m : Strmap) : Strmap :=
  match saved with
  | some v => insertA lastAppliedConfigKey v m
  | none => m

/-- `EqualV2CNP`.  The Go function mutates the two (live, shared) objects:
it deletes the last-applied-configuration annotation from both before
comparing and restores it via `defer` before returning.  The model returns
the comparison result together with the post-call states of both inputs;
on the early `return false` (name/namespace mismatch) the annotations were
never touched. -/
def EqualV2CNP (cnp1 cnp2 : SlimCNP) : Bool × SlimCNP × SlimCNP :=
  if ¬ (cnp1.cnp.objectMeta.name = cnp2.cnp.objectMeta.name ∧
        cnp1.cnp.objectMeta.namespace' = cnp2.cnp.objectMeta.namespace') then
    (false, cnp1, cnp2)
  else
    (MapStringEquals (deleteA lastAppliedConfigKey cnp1.cnp.objectMeta.annotations)
        (deleteA lastAppliedConfigKey cnp2.cnp.objectMeta.annotations)
      && decide (cnp1.cnp.spec = cnp2.cnp.spec)
      && decide (cnp1.cnp.specs = cnp2.cnp.specs),
     setAnnotations cnp1
       (restoreLastApplied (lookupA cnp1.cnp.objectMeta.annotations lastAppliedConfigKey)
         (deleteA lastAppliedConfigKey cnp1.cnp.objectMeta.annotations)),
     setAnnotations cnp2
       (restoreLastApplied (lookupA cnp2.cnp.objectMeta.annotations lastAppliedConfigKey)
         (deleteA lastAppliedConfigKey cnp2.cnp.objectMeta.annotations)))

/-- The concrete-object branch of `ConvertToCNPWithStatus`: wrap the raw
policy unchanged (status kept, nothing cleared). -/
def ConvertToCNPWithStatusCore (c : CiliumNetworkPolicy) : SlimCNP :=
  { cnp := c }

/-- The concrete-object branch of `ConvertToCCNPWithStatus`: the slim
result shares the embedded policy pointer and `t.Status = concreteObj.Status`
writes the cluster-wide status through that shared pointer, so the call
also leaves the source with its embedded policy's status overwritten; no
field of the source is zeroed.  Returns (slim result, source after call). -/
def ConvertToCCNPWithStatus (c : CiliumClusterwideNetworkPolicy) :
    SlimCNP × CiliumClusterwideNetworkPolicy :=
  ({ cnp := { c.cnp with status := c.status } },
   { c with cnp := { c.cnp with status := c.status } })

/-- The concrete-object branch of `ConvertToCCNP`: copy TypeMeta,
ObjectMeta, Spec and Specs into a fresh slim policy (status dropped), then
`*concreteObj = cilium_v2.CiliumClusterwideNetworkPolicy{}` zeroes every
field of the source.  Returns (slim result, source after call). -/
def ConvertToCCNP (c : CiliumClusterwideNetworkPolicy) :
    SlimCNP × CiliumClusterwideNetworkPolicy :=
  ({ cnp := { typeMeta := c.cnp.typeMeta, objectMeta := c.cnp.objectMeta,
              spec := c.cnp.spec, specs := c.cnp.specs, status := "" } },
   zeroCCNP)

/-! ### Pod -/

structure PodIP where
  ip : String
deriving DecidableEq

structure EnvVar where
  name : String
  value : String
deriving DecidableEq

structure VolumeMount where
  name : String
  mountPath : String
deriving DecidableEq

/-- `slim_corev1.Container`, with the fields the equality code reads plus
the environment variables it deliberately does not inspect. -/
structure Container where
  name : String
  image : String
  volumeMounts : List VolumeMount
  env : List EnvVar
deriving DecidableEq

structure PodSpec where
  serviceAccountName : String
  hostNetwork : Bool
  containers : List Container
deriving DecidableEq

/-- `PodIPs` is a Go slice whose nil-ness is observable, hence `Option`. -/
structure PodStatus where
  podIP : String
  hostIP : String
  podIPs : Option (List PodIP)
deriving DecidableEq

structure Pod where
  objectMeta : ObjectMeta
  spec : PodSpec
  status : PodStatus
deriving DecidableEq

/-- The volume-mount loop of `EqualV1PodContainers`: positional comparison
of mount paths (runs after the length check). -/
def volumeMountsLoop : List VolumeMount → List VolumeMount → Bool
  | [], [] => true
  | v1 :: r1, v2 :: r2 => decide (v1.mountPath = v2.mountPath) && volumeMountsLoop r1 r2
  | _, _ => false

def EqualV1PodContainers (c1 c2 : Container) : Bool :=
  decide (c1.name = c2.name)
  && decide (c1.image = c2.image)
  && decide (c1.volumeMounts.length = c2.volumeMounts.length)
  && volumeMountsLoop c1.volumeMounts c2.volumeMounts

/-- The element loop of `EqualPodIPs` (runs after the nil and length checks). -/
def podIPsLoop : List PodIP → List PodIP → Bool
  | [], [] => true
  | x :: r1, y :: r2 => decide (x = y) && podIPsLoop r1 r2
  | _, _ => false

/-- `EqualPodIPs`: "If one is nil, the other must also be nil", then
lengths, then elements. -/
def EqualPodIPs (a b : Option (List PodIP)) : Bool :=
  !(a.isNone != b.isNone)
  && decide ((a.getD []).length = (b.getD []).length)
  && podIPsLoop (a.getD []) (b.getD [])

/-- `AnnotationsEqual`: loop over the relevant keys, Go map indexing with
the empty-string default for a missing key. -/
def AnnotationsEqual : List String → Strmap → Strmap → Bool
  | [], _, _ => true
  | an :: rest, anno1, anno2 =>
      decide (lookupD anno1 an = lookupD anno2 an) && AnnotationsEqual rest anno1 anno2

/-- The container loop of `EqualV1Pod` (runs after the length check). -/
def containersLoop : List Container → List Container → Bool
  | [], [] => true
  | c1 :: r1, c2 :: r2 => EqualV1PodContainers c1 c2 && containersLoop r1 r2
  | _, _ => false

def EqualV1Pod (pod1 pod2 : Pod) : Bool :=
  decide (pod1.status.podIP = pod2.status.podIP)
  && decide (pod1.status.hostIP = pod2.status.hostIP)
  && decide (pod1.spec.serviceAccountName = pod2.spec.serviceAccountName)
  && decide (pod1.spec.hostNetwork = pod2.spec.hostNetwork)
  && EqualPodIPs pod1.status.podIPs pod2.status.podIPs
  && AnnotationsEqual [proxyVisibilityKey] pod1.objectMeta.annotations pod2.objectMeta.annotations
  && MapStringEquals pod1.objectMeta.labels pod2.objectMeta.labels
  && decide (pod1.spec.containers.length = pod2.spec.containers.length)
  && containersLoop pod1.spec.containers pod2.spec.containers

/-! ### Node -/

/-- `v1.Taint`; `TimeAdded` is a nilable `*metav1.Time`, modelled as an
optional instant. -/
structure Taint where
  key : String
  value : String
  effect : String
  timeAdded : Option Int
deriving DecidableEq

/-- Modelled from the spec: the "dedicated taint-match predicate"
(`Taint.MatchTaint` of the external Kubernetes API): taint key and effect
are equal. -/
def MatchTaint (t taintToMatch : Taint) : Bool :=
  decide (t.key = taintToMatch.key) && decide (t.effect = taintToMatch.effect)

/-- Modelled from the spec: added-timestamp equality (`metav1.Time.Equal`
on nilable times): both absent, or both the same instant. -/
def timeEqual (t u : Option Int) : Bool := decide (t = u)

structure V1NodeStatus where
  addresses : List String
deriving DecidableEq

structure V1NodeSpec where
  podCIDR : String
  podCIDRs : List String
  taints : List Taint
deriving DecidableEq

/-- `*v1.Node`. -/
structure V1Node where
  typeMeta : TypeMeta
  objectMeta : ObjectMeta
  status : V1NodeStatus
  spec : V1NodeSpec
deriving DecidableEq

/-- `types.Node`. -/
structure Node where
  typeMeta : TypeMeta
  objectMeta : ObjectMeta
  statusAddresses : List String
  specPodCIDR : String
  specPodCIDRs : List String
  specTaints : List Taint
deriving DecidableEq

def zeroV1Node : V1Node :=
  { typeMeta := zeroTypeMeta, objectMeta := zeroObjectMeta,
    status := { addresses := [] },
    spec := { podCIDR := "", podCIDRs := [], taints := [] } }

/-- The concrete-object branch of `ConvertToNode`: extract the slim node,
then `*concreteObj = v1.Node{}` zeroes the source.  Returns
(slim result, source after call). -/
def ConvertToNode (n : V1Node) : Node × V1Node :=
  ({ typeMeta := n.typeMeta, objectMeta := n.objectMeta,
     statusAddresses := n.status.addresses,
     specPodCIDR := n.spec.podCIDR, specPodCIDRs := n.spec.podCIDRs,
     specTaints := n.spec.taints },
   zeroV1Node)

def annotationsWeCareAbout : List String :=
  [ciliumHostIPKey, ciliumHostIPv6Key, v4HealthNameKey, v6HealthNameKey]

/-- The taint loop of `EqualV1Node` (runs after the length check):
`taint1.MatchTaint(&taint2)`, then value, then `TimeAdded`. -/
def taintsLoop : List Taint → List Taint → Bool
  | [], [] => true
  | t1 :: r1, t2 :: r2 =>
      MatchTaint t1 t2 && decide (t1.value = t2.value)
        && timeEqual t1.timeAdded t2.timeAdded && taintsLoop r1 r2
  | _, _ => false

/-- `EqualV1Node`: name, the fixed annotation allow-list (the inline loop
has the same shape as `AnnotationsEqual`), then positional taints. -/
def EqualV1Node (node1 node2 : Node) : Bool :=
  decide (node1.objectMeta.name = node2.objectMeta.name)
  && AnnotationsEqual annotationsWeCareAbout node1.objectMeta.annotations node2.objectMeta.annotations
  && decide (node1.specTaints.length = node2.specTaints.length)
  && taintsLoop node1.specTaints node2.specTaints

/-! ### Namespace -/

structure V1Namespace where
  typeMeta : TypeMeta
  objectMeta : ObjectMeta
deriving DecidableEq

structure Namespace where
  typeMeta : TypeMeta
  objectMeta : ObjectMeta
deriving DecidableEq

def zeroV1Namespace : V1Namespace :=
  { typeMeta := zeroTypeMeta, objectMeta := zeroObjectMeta }

/-- The concrete-object branch of `ConvertToNamespace`: extract identity,
then `*concreteObj = v1.Namespace{}` zeroes the source. -/
def ConvertToNamespace (ns : V1Namespace) : Namespace × V1Namespace :=
  ({ typeMeta := ns.typeMeta, objectMeta := ns.objectMeta }, zeroV1Namespace)

def EqualV1Namespace (ns1 ns2 : Namespace) : Bool :=
  decide (ns1.objectMeta.name = ns2.objectMeta.name)
  && MapStringEquals ns1.objectMeta.labels ns2.objectMeta.labels

/-! ### CiliumEndpoint -/

/-- `types.CiliumEndpoint` (payload fields opaque to the cast helper). -/
structure CiliumEndpoint where
  typeMeta : TypeMeta
  objectMeta : ObjectMeta
  encryption : String
  identity : String
  networking : String
  namedPorts : String
deriving DecidableEq

/-! ### Dynamic values (`interface\x7b\x7d`) and the tombstone wrapper -/

/-- A Go `interface` value as this file's functions can observe it: the
raw and normalized shapes the type switches test for, the
`cache.DeletedFinalStateUnknown` wrapper, and any other dynamic value. -/
inductive KObj where
  | v1NetworkPolicy (p : V1NetworkPolicy)
  | networkPolicy (p : NetworkPolicy)
  | node (n : Node)
  | ciliumEndpoint (ce : CiliumEndpoint)
  | deletedFinalStateUnknown (key : String) (inner : KObj)
  | other (tag : String)
deriving DecidableEq

/-- `ConvertToNetworkPolicy`: raw policy is wrapped; a tombstone whose
payload is a raw policy is re-wrapped under the same key with the wrapped
payload; a tombstone with any other payload, and any other object, is
returned unchanged. -/
def ConvertToNetworkPolicy : KObj → KObj
  | KObj.v1NetworkPolicy p =>
      KObj.networkPolicy (ConvertToNetworkPolicyCore p)
  | KObj.deletedFinalStateUnknown key inner =>
      match inner with
      | KObj.v1NetworkPolicy p =>
          KObj.deletedFinalStateUnknown key (KObj.networkPolicy (ConvertToNetworkPolicyCore p))
      | _ => KObj.deletedFinalStateUnknown key inner
  | obj => obj

/-- `ObjToV1NetworkPolicy`: the expected cast, or nil plus a logged
warning (second component: a warning was logged). -/
def ObjToV1NetworkPolicy : KObj → Option NetworkPolicy × Bool
  | KObj.networkPolicy p => (some p, false)
  | _ => (none, true)

/-- `ObjToV1Node`: the expected cast, or nil plus a logged warning. -/
def ObjToV1Node : KObj → Option Node × Bool
  | KObj.node n => (some n, false)
  | _ => (none, true)

/-- `ObjToCiliumEndpoint`: the expected cast, or nil plus a logged warning. -/
def ObjToCiliumEndpoint : KObj → Option CiliumEndpoint × Bool
  | KObj.ciliumEndpoint ce => (some ce, false)
  | _ => (none, true)

/-! ### Helpers for stating the claims, and concrete example objects -/

/-- Replace the environment variables of the containers, positionally;
containers beyond the replacement list keep theirs. -/
def withEnvList : List Container → List (List EnvVar) → List Container
  | [], _ => []
  | c :: cs, [] => c :: cs
  | c :: cs, e :: es => { c with env := e } :: withEnvList cs es

def withEnvs (p : Pod) (envs : List (List EnvVar)) : Pod :=
  { p with spec := { p.spec with containers := withEnvList p.spec.containers envs } }

def setPodIP (p : Pod) (ip : String) : Pod :=
  { p with status := { p.status with podIP := ip } }

def setPodIPs (p : Pod) (ips : Option (List PodIP)) : Pod :=
  { p with status := { p.status with podIPs := ips } }

def exCNPBase : CiliumNetworkPolicy :=
  { typeMeta := { kind := "CiliumNetworkPolicy", apiVersion := "cilium.io/v2" },
    objectMeta := { name := "policy", namespace' := "default", labels := [],
                    annotations := [] },
    spec := "spec-payload", specs := [], status := "status-payload" }

def exSlimCNP1 : SlimCNP :=
  { cnp := { exCNPBase with objectMeta :=
      { exCNPBase.objectMeta with annotations := [(lastAppliedConfigKey, "applied-v1")] } } }

def exSlimCNP2 : SlimCNP :=
  { cnp := { exCNPBase with objectMeta :=
      { exCNPBase.objectMeta with annotations := [(lastAppliedConfigKey, "applied-v2")] } } }

def exCCNP : CiliumClusterwideNetworkPolicy :=
  { cnp := { exCNPBase with objectMeta := { exCNPBase.objectMeta with namespace' := "" } },
    status := "ccnp-status" }

def taintA : Taint := { key := "a", value := "1", effect := "NoSchedule", timeAdded := some 0 }

def taintB : Taint := { key := "b", value := "2", effect := "NoSchedule", timeAdded := some 1 }

def exNodeTaintsAB : Node :=
  { typeMeta := zeroTypeMeta, objectMeta := { zeroObjectMeta with name := "node-1" },
    statusAddresses := [], specPodCIDR := "", specPodCIDRs := [],
    specTaints := [taintA, taintB] }

def exNodeTaintsBA : Node :=
  { typeMeta := zeroTypeMeta, objectMeta := { zeroObjectMeta with name := "node-1" },
    statusAddresses := [], specPodCIDR := "", specPodCIDRs := [],
    specTaints := [taintB, taintA] }

def exKey : String := "example.io/key"

/-! ### Map lemmas -/

theorem lookupA_eq_none_of_not_mem (m : Strmap) (k : String) (h : k ∉ keysOf m) :
    lookupA m k = none := by
  induction m with
  | nil => rfl
  | cons p rest ih =>
      obtain ⟨k0, v⟩ := p
      simp only [keysOf, List.map_cons, List.mem_cons, not_or] at h
      simp only [lookupA, if_neg h.1]
      exact ih (by simpa [keysOf] using h.2)

theorem mapStringEquals_iff (m1 m2 : Strmap) :
    MapStringEquals m1 m2 = true ↔ ∀ k, lookupA m1 k = lookupA m2 k := by
  constructor
  · intro h k
    rw [MapStringEquals, List.all_eq_true] at h
    by_cases hk : k ∈ keysOf m1 ++ keysOf m2
    · exact of_decide_eq_true (h k hk)
    · rw [List.mem_append, not_or] at hk
      rw [lookupA_eq_none_of_not_mem m1 k hk.1, lookupA_eq_none_of_not_mem m2 k hk.2]
  · intro h
    rw [MapStringEquals, List.all_eq_true]
    exact fun k _ => decide_eq_true (h k)

theorem mapStringEquals_refl (m : Strmap) : MapStringEquals m m = true :=
  (mapStringEquals_iff m m).mpr fun _ => rfl

theorem lookupA_deleteA (key k : String) (m : Strmap) :
    lookupA (deleteA key m) k = if k = key then none else lookupA m k := by
  induction m with
  | nil => simp [deleteA, lookupA]
  | cons p rest ih =>
      obtain ⟨k0, v⟩ := p
      by_cases h0 : k0 = key
      · subst h0
        by_cases hk : k = k0
        · subst hk
          simp [deleteA, lookupA, ih]
        · simp [deleteA, lookupA, ih, hk]
      · by_cases hk : k = k0
        · subst hk
          simp [deleteA, lookupA, h0]
        · simp [deleteA, lookupA, h0, hk, ih]

theorem lookupA_insertA (key v k : String) (m : Strmap) :
    lookupA (insertA key v m) k = if k = key then some v else lookupA m k := by
  by_cases hk : k = key
  · simp [insertA, lookupA, hk]
  · simp [insertA, lookupA, hk, lookupA_deleteA]

theorem restore_delete (a : Strmap) :
    mapEqA (restoreLastApplied (lookupA a lastAppliedConfigKey)
      (deleteA lastAppliedConfigKey a)) a := by
  intro k
  cases h : lookupA a lastAppliedConfigKey with
  | none =>
      rw [restoreLastApplied, lookupA_deleteA]
      by_cases hk : k = lastAppliedConfigKey
      · rw [if_pos hk, hk, h]
      · rw [if_neg hk]
  | some v =>
      rw [restoreLastApplied, lookupA_insertA]
      by_cases hk : k = lastAppliedConfigKey
      · rw [if_pos hk, hk, h]
      · rw [if_neg hk, lookupA_deleteA, if_neg hk]

/-! ### Reflexivity lemmas for the loops and evaluators -/

theorem annotationsEqual_self (ks : List String) (m : Strmap) :
    AnnotationsEqual ks m m = true := by
  induction ks with
  | nil => rfl
  | cons a rest ih => simp [AnnotationsEqual, ih]

theorem volumeMountsLoop_self (l : List VolumeMount) : volumeMountsLoop l l = true := by
  induction l with
  | nil => rfl
  | cons v rest ih => simp [volumeMountsLoop, ih]

theorem podIPsLoop_self (l : List PodIP) : podIPsLoop l l = true := by
  induction l with
  | nil => rfl
  | cons x rest ih => simp [podIPsLoop, ih]

theorem equalPodIPs_self (a : Option (List PodIP)) : EqualPodIPs a a = true := by
  cases a with
  | none => rfl
  | some l => simp [EqualPodIPs, podIPsLoop_self]

theorem equalV1PodContainers_self (c : Container) : EqualV1PodContainers c c = true := by
  simp [EqualV1PodContainers, volumeMountsLoop_self]

theorem containersLoop_self (l : List Container) : containersLoop l l = true := by
  induction l with
  | nil => rfl
  | cons c rest ih => simp [containersLoop, equalV1PodContainers_self, ih]

theorem equalV1Pod_refl (p : Pod) : EqualV1Pod p p = true := by
  simp [EqualV1Pod, equalPodIPs_self, annotationsEqual_self, mapStringEquals_refl,
    containersLoop_self]

theorem matchTaint_self (t : Taint) : MatchTaint t t = true := by
  simp [MatchTaint]

theorem taintsLoop_self (l : List Taint) : taintsLoop l l = true := by
  induction l with
  | nil => rfl
  | cons t rest ih => simp [taintsLoop, matchTaint_self, timeEqual, ih]

theorem equalV1Node_refl (n : Node) : EqualV1Node n n = true := by
  simp [EqualV1Node, annotationsEqual_self, taintsLoop_self]

theorem equalV2CNP_fst_refl (x : SlimCNP) : (EqualV2CNP x x).1 = true := by
  simp [EqualV2CNP, mapStringEquals_refl]

/-! ### The loops imply positional agreement -/

theorem taintsLoop_forall2 (l1 l2 : List Taint) (h : taintsLoop l1 l2 = true) :
    List.Forall₂ (fun t1 t2 =>
      MatchTaint t1 t2 = true ∧ t1.value = t2.value ∧ t1.timeAdded = t2.timeAdded) l1 l2 := by
  induction l1 generalizing l2 with
  | nil =>
      cases l2 with
      | nil => exact List.Forall₂.nil
      | cons y ys => simp [taintsLoop] at h
  | cons x xs ih =>
      cases l2 with
      | nil => simp [taintsLoop] at h
      | cons y ys =>
          simp only [taintsLoop, Bool.and_eq_true, decide_eq_true_eq, timeEqual] at h
          exact List.Forall₂.cons ⟨h.1.1.1, h.1.1.2, h.1.2⟩ (ih ys h.2)

/-! ### Environment-variable replacement leaves the compared fields alone -/

theorem withEnvList_length (cs : List Container) (es : List (List EnvVar)) :
    (withEnvList cs es).length = cs.length := by
  induction cs generalizing es with
  | nil => simp [withEnvList]
  | cons c rest ih =>
      cases es with
      | nil => simp [withEnvList]
      | cons e es' => simp [withEnvList, ih]

theorem containersLoop_withEnvList (cs : List Container) (es : List (List EnvVar)) :
    containersLoop cs (withEnvList cs es) = true := by
  induction cs generalizing es with
  | nil => rfl
  | cons c rest ih =>
      cases es with
      | nil => simp [withEnvList, containersLoop_self]
      | cons e es' =>
          simp only [withEnvList, containersLoop, Bool.and_eq_true]
          refine ⟨?_, ih es'⟩
          simp [EqualV1PodContainers, volumeMountsLoop_self]

/-! ### The claims -/

/-- Claim C1: `ConvertToNetworkPolicy` maps a deletion wrapper whose payload is
a raw NetworkPolicy to a deletion wrapper with the same key whose payload is
the normalized policy, and returns a deletion wrapper with a payload of any
other type unchanged (same key, same unmodified payload). -/
theorem convertToNetworkPolicy_tombstone :
    (∀ (key : String) (p : V1NetworkPolicy),
       ConvertToNetworkPolicy (KObj.deletedFinalStateUnknown key (KObj.v1NetworkPolicy p)) =
         KObj.deletedFinalStateUnknown key
           (KObj.networkPolicy (ConvertToNetworkPolicyCore p))) ∧
    (∀ (key : String) (inner : KObj), (∀ p, inner ≠ KObj.v1NetworkPolicy p) →
       ConvertToNetworkPolicy (KObj.deletedFinalStateUnknown key inner) =
         KObj.deletedFinalStateUnknown key inner) := by
  refine ⟨fun key p => rfl, fun key inner h => ?_⟩
  cases inner with
  | v1NetworkPolicy p => exact absurd rfl (h p)
  | networkPolicy p => rfl
  | node n => rfl
  | ciliumEndpoint ce => rfl
  | deletedFinalStateUnknown k o => rfl
  | other t => rfl

/-- Claim C2: two SlimCNPs identical in name, namespace, spec, multi-spec list
and all annotations except the value (or presence) of the
last-applied-configuration annotation compare equal under `EqualV2CNP`. -/
theorem equalV2CNP_ignores_lastApplied (cnp1 cnp2 : SlimCNP)
    (hname : cnp1.cnp.objectMeta.name = cnp2.cnp.objectMeta.name)
    (hns : cnp1.cnp.objectMeta.namespace' = cnp2.cnp.objectMeta.namespace')
    (hspec : cnp1.cnp.spec = cnp2.cnp.spec)
    (hspecs : cnp1.cnp.specs = cnp2.cnp.specs)
    (hann : ∀ k, k ≠ lastAppliedConfigKey →
        lookupA cnp1.cnp.objectMeta.annotations k = lookupA cnp2.cnp.objectMeta.annotations k) :
    (EqualV2CNP cnp1 cnp2).1 = true := by
  have hmap : MapStringEquals (deleteA lastAppliedConfigKey cnp1.cnp.objectMeta.annotations)
      (deleteA lastAppliedConfigKey cnp2.cnp.objectMeta.annotations) = true := by
    rw [mapStringEquals_iff]
    intro k
    rw [lookupA_deleteA, lookupA_deleteA]
    by_cases hk : k = lastAppliedConfigKey
    · rw [if_pos hk, if_pos hk]
    · rw [if_neg hk, if_neg hk]
      exact hann k hk
  simp [EqualV2CNP, hname, hns, hspec, hspecs, hmap]

/-- Witness for claim C2: two concrete policies differing only in the
last-applied-configuration annotation value compare equal. -/
theorem equalV2CNP_ignores_lastApplied_witness :
    (EqualV2CNP exSlimCNP1 exSlimCNP2).1 = true :=
  equalV2CNP_ignores_lastApplied exSlimCNP1 exSlimCNP2 rfl rfl rfl rfl
    (by intro k hk; simp [exSlimCNP1, exSlimCNP2, exCNPBase, lookupA, hk])

/-- Claim C3: after `EqualV2CNP` returns, both input objects' annotation maps
hold exactly the same entries as before the call (the last-applied value, when
it was present, is present again with its original value). -/
theorem equalV2CNP_restores_annotations :
    ∀ cnp1 cnp2 : SlimCNP,
      mapEqA (EqualV2CNP cnp1 cnp2).2.1.cnp.objectMeta.annotations
        cnp1.cnp.objectMeta.annotations ∧
      mapEqA (EqualV2CNP cnp1 cnp2).2.2.cnp.objectMeta.annotations
        cnp2.cnp.objectMeta.annotations := by
  intro cnp1 cnp2
  unfold EqualV2CNP
  split
  · exact ⟨fun k => rfl, fun k => rfl⟩
  · exact ⟨restore_delete _, restore_delete _⟩

/-- Claim C4: for every supported kind, normalizing a raw object and comparing
the result with itself yields equality (reflexivity of `Equal ∘ Normalize`):
NetworkPolicy, Service, Endpoints, EndpointSlice, NetworkPolicy-with-status
(single and cluster-wide), Pod (whose normalization is the identity), Node and
Namespace. -/
theorem equal_normalize_reflexive :
    (∀ p : V1NetworkPolicy,
       EqualV1NetworkPolicy (ConvertToNetworkPolicyCore p) (ConvertToNetworkPolicyCore p) = true) ∧
    (∀ (s : V1Service) (na : NodeAddressing),
       EqualV1Services (ConvertToK8sServiceCore s) (ConvertToK8sServiceCore s) na = true) ∧
    (∀ e : V1Endpoints,
       EqualV1Endpoints (ConvertToK8sEndpointsCore e) (ConvertToK8sEndpointsCore e) = true) ∧
    (∀ e : V1beta1EndpointSlice,
       EqualV1EndpointSlice (ConvertToK8sEndpointSliceCore e)
         (ConvertToK8sEndpointSliceCore e) = true) ∧
    (∀ c : CiliumNetworkPolicy,
       (EqualV2CNP (ConvertToCNPWithStatusCore c) (ConvertToCNPWithStatusCore c)).1 = true) ∧
    (∀ c : CiliumClusterwideNetworkPolicy,
       (EqualV2CNP (ConvertToCCNPWithStatus c).1 (ConvertToCCNPWithStatus c).1).1 = true) ∧
    (∀ p : Pod, EqualV1Pod p p = true) ∧
    (∀ n : V1Node, EqualV1Node (ConvertToNode n).1 (ConvertToNode n).1 = true) ∧
    (∀ ns : V1Namespace,
       EqualV1Namespace (ConvertToNamespace ns).1 (ConvertToNamespace ns).1 = true) := by
  refine ⟨?_, ?_, ?_, ?_, ?_, ?_, ?_, ?_, ?_⟩
  · intro p
    simp [EqualV1NetworkPolicy]
  · intro s na
    simp [EqualV1Services, mapStringEquals_refl, DeepEquals]
  · intro e
    simp [EqualV1Endpoints]
  · intro e
    simp [EqualV1EndpointSlice]
  · intro c
    exact equalV2CNP_fst_refl _
  · intro c
    exact equalV2CNP_fst_refl _
  · exact equalV1Pod_refl
  · intro n
    exact equalV1Node_refl _
  · intro ns
    simp [EqualV1Namespace, mapStringEquals_refl]

/-- Counterexample to claim C5: applied to a concrete raw
CiliumClusterwideNetworkPolicy, `ConvertToCCNPWithStatus` does not clear the
source to its zero value. -/
theorem convertToCCNPWithStatus_not_zeroing_cex :
    (ConvertToCCNPWithStatus exCCNP).2 ≠ zeroCCNP := by decide

/-- Claim C5 as amended: `ConvertToCCNPWithStatus` leaves the source unzeroed
(its only effect on the source is overwriting the embedded policy's status
with the cluster-wide status, through the shared embedded pointer); the
destructive zeroing of every source field is performed by `ConvertToCCNP`. -/
theorem ccnp_zeroing_behavior :
    ∀ c : CiliumClusterwideNetworkPolicy,
      (ConvertToCCNPWithStatus c).2 = { c with cnp := { c.cnp with status := c.status } } ∧
      (ConvertToCCNP c).2 = zeroCCNP :=
  fun _ => ⟨rfl, rfl⟩

/-- Claim C6: `EqualV1Node` compares taints strictly by position — when it
returns true the two taint lists agree pointwise (same length; at each index
the taint-match predicate holds and value and added-timestamp are equal) —
and the spec's concrete pair of nodes whose two taints appear in swapped
order compares not equal. -/
theorem equalV1Node_taints_positional :
    (∀ n1 n2 : Node, EqualV1Node n1 n2 = true →
       List.Forall₂ (fun t1 t2 =>
         MatchTaint t1 t2 = true ∧ t1.value = t2.value ∧ t1.timeAdded = t2.timeAdded)
         n1.specTaints n2.specTaints) ∧
    EqualV1Node exNodeTaintsAB exNodeTaintsBA = false := by
  constructor
  · intro n1 n2 h
    simp only [EqualV1Node, Bool.and_eq_true] at h
    exact taintsLoop_forall2 _ _ h.2
  · decide

/-- Claim C7: two pods identical except for the environment variables inside
their containers compare equal under `EqualV1Pod` (container comparison only
inspects name, image and ordered volume-mount paths), while two pods
differing only in `Status.PodIP` compare not equal. -/
theorem equalV1Pod_boundary :
    (∀ (p : Pod) (envs : List (List EnvVar)), EqualV1Pod p (withEnvs p envs) = true) ∧
    (∀ (p : Pod) (ip : String), ip ≠ p.status.podIP →
       EqualV1Pod p (setPodIP p ip) = false) := by
  constructor
  · intro p envs
    simp [EqualV1Pod, withEnvs, equalPodIPs_self, annotationsEqual_self,
      mapStringEquals_refl, withEnvList_length, containersLoop_withEnvList]
  · intro p ip h
    have h' : ¬ p.status.podIP = ip := fun he => h he.symm
    simp [EqualV1Pod, setPodIP, h']

/-- Claim C8: each top-level cast helper (`ObjToV1NetworkPolicy`,
`ObjToV1Node`, `ObjToCiliumEndpoint`), on any input that is not of the
expected kind, returns nil rather than an error, with the mismatch only
logged as a warning. -/
theorem objTo_cast_mismatch_nil :
    (∀ o : KObj, (∀ p, o ≠ KObj.networkPolicy p) → ObjToV1NetworkPolicy o = (none, true)) ∧
    (∀ o : KObj, (∀ n, o ≠ KObj.node n) → ObjToV1Node o = (none, true)) ∧
    (∀ o : KObj, (∀ ce, o ≠ KObj.ciliumEndpoint ce) → ObjToCiliumEndpoint o = (none, true)) := by
  refine ⟨?_, ?_, ?_⟩ <;> intro o h <;> cases o <;> first | rfl | exact absurd rfl (h _)

/-- Claim C9: `AnnotationsEqual` returns true iff, for each listed key, the
two maps agree under Go map indexing with the empty-string default — so a key
absent on both sides counts as equal, and a key absent on one side and present
with the empty-string value on the other also counts as equal. -/
theorem annotationsEqual_characterization :
    (∀ (relevantKeys : List String) (anno1 anno2 : Strmap),
       AnnotationsEqual relevantKeys anno1 anno2 = true ↔
         ∀ k ∈ relevantKeys, lookupD anno1 k = lookupD anno2 k) ∧
    AnnotationsEqual [exKey] [] [(exKey, "")] = true ∧
    AnnotationsEqual [exKey] [] [] = true := by
  refine ⟨?_, by decide, by decide⟩
  intro ks a1 a2
  induction ks with
  | nil => simp [AnnotationsEqual]
  | cons a rest ih =>
      simp [AnnotationsEqual, ih, List.forall_mem_cons]

/-- Claim C10: a nil and a non-nil empty pod-IP list are not interchangeable:
`EqualPodIPs` returns false whenever exactly one argument is nil, and two pods
agreeing on every other compared field but with nil-versus-empty
`Status.PodIPs` compare not equal under `EqualV1Pod`. -/
theorem equalPodIPs_nil_vs_empty :
    (∀ l : List PodIP,
       EqualPodIPs none (some l) = false ∧ EqualPodIPs (some l) none = false) ∧
    (∀ p : Pod, p.status.podIPs = none →
       EqualV1Pod p (setPodIPs p (some [])) = false) := by
  constructor
  · intro l
    constructor <;> simp [EqualPodIPs]
  · intro p h
    simp [EqualV1Pod, setPodIPs, EqualPodIPs, h]

end K8s
